import Mathlib

/-!
Shallow embedding of the `userDriversVisualizer` frontend, centred on
`src/services/matchSnapshotService.ts` (the mock snapshot generator and the
snapshot fetcher), the `App` / `MapView` state logic that consumes snapshots,
and the `pickUserAvatarVariant` helper, together with a model of the
backend `SnapshotStore` described only by the project's documentation.

Conventions:
* TS `number` coordinates are modelled as `ℚ` (their values never matter to
  the verified properties).
* A JS expression that throws (`undefined.id`) is modelled with `Option`:
  `none` is the thrown `TypeError`.
* `Math.random()` draws are threaded explicitly: the `k`-th call of
  `randomAroundTehran` receives the pair `rand k` of `[0,1)` samples.
-/

namespace UserDriversVisualizer

/-- `TrackedPoint` from `src/types.ts`: `{ id: string; lat: number; lng: number }`. -/
structure TrackedPoint where
  id : String
  lat : ℚ
  lng : ℚ
deriving DecidableEq, Repr

/-- `MatchPair` from `src/types.ts`: `{ driver: string; user: string }`. -/
structure MatchPair where
  driver : String
  user : String
deriving DecidableEq, Repr

/-- `MatchSnapshotResponse` from `src/types.ts`:
`{ drivers: TrackedPoint[]; users: TrackedPoint[]; matchs: MatchPair[] }`. -/
structure MatchSnapshotResponse where
  drivers : List TrackedPoint
  users : List TrackedPoint
  matchs : List MatchPair
deriving DecidableEq, Repr

/-- `MockSnapshotConfig` from `src/services/matchSnapshotService.ts`. -/
structure MockSnapshotConfig where
  driversCount : Nat
  usersCount : Nat
  matchesCount : Nat
deriving DecidableEq, Repr

/-- `randomAroundTehran` from `src/services/matchSnapshotService.ts`; the two
`Math.random()` samples are passed in as `r.1, r.2`. -/
def randomAroundTehran (r : ℚ × ℚ) : ℚ × ℚ :=
  (35.65 + r.1 * 0.15, 51.25 + r.2 * 0.25)

/-- The id template `` `driver_${i+1}` `` of `generateMockSnapshot`. -/
def driverIdOf (i : Nat) : String := "driver_" ++ toString (i + 1)

/-- The id template `` `user_${i+1}` `` of `generateMockSnapshot`. -/
def userIdOf (i : Nat) : String := "user_" ++ toString (i + 1)

/-- The `drivers` array built by `generateMockSnapshot`
(`Array.from({length: config.driversCount}, (_, i) => ...)`). -/
def mockDrivers (rand : Nat → ℚ × ℚ) (config : MockSnapshotConfig) : List TrackedPoint :=
  (List.range config.driversCount).map fun i =>
    let c := randomAroundTehran (rand i)
    { id := driverIdOf i, lat := c.1, lng := c.2 }

/-- The `users` array built by `generateMockSnapshot`; the driver array was
built first, so the `i`-th user consumes the `(driversCount + i)`-th
`randomAroundTehran` call. -/
def mockUsers (rand : Nat → ℚ × ℚ) (config : MockSnapshotConfig) : List TrackedPoint :=
  (List.range config.usersCount).map fun i =>
    let c := randomAroundTehran (rand (config.driversCount + i))
    { id := userIdOf i, lat := c.1, lng := c.2 }

/-- `generateMockSnapshot` from `src/services/matchSnapshotService.ts`.
`rand k` is the pair of `Math.random()` samples consumed by the `k`-th call of
`randomAroundTehran` (drivers first, then users, in array order).
The match loop reads `drivers[i % Math.max(1, drivers.length)].id` and
`users[(i * 3) % Math.max(1, users.length)].id`; when the indexed slot is
`undefined` (empty array) the member access throws, modelled by `none`. -/
def generateMockSnapshot (rand : Nat → ℚ × ℚ) (config : MockSnapshotConfig) :
    Option MatchSnapshotResponse :=
  let drivers := mockDrivers rand config
  let users := mockUsers rand config
  match (List.range config.matchesCount).mapM (fun i => do
      let d ← drivers.get? (i % max 1 drivers.length)
      let u ← users.get? ((i * 3) % max 1 users.length)
      pure ({ driver := d.id, user := u.id } : MatchPair)) with
  | some matchs => some { drivers := drivers, users := users, matchs := matchs }
  | none => none

/-! ### Decimal representation: `Nat.repr` is injective

The generated ids are `"driver_" ++ toString (i+1)`; set-local uniqueness of
ids therefore reduces to injectivity of the decimal printer `Nat.repr`,
which we establish here via an explicit digit-list spec and a left inverse. -/

/-- Most-significant-first decimal digit characters of `n`
(spec for `Nat.toDigitsCore`). -/
def decChars (n : Nat) : List Char :=
  if h : n < 10 then [Nat.digitChar n]
  else decChars (n / 10) ++ [Nat.digitChar (n % 10)]
decreasing_by exact Nat.div_lt_self (by omega) (by omega)

theorem decChars_of_lt {n : Nat} (h : n < 10) : decChars n = [Nat.digitChar n] := by
  rw [decChars]; simp [h]

theorem decChars_of_ge {n : Nat} (h : 10 ≤ n) :
    decChars n = decChars (n / 10) ++ [Nat.digitChar (n % 10)] := by
  rw [decChars]; simp [Nat.not_lt_of_ge h]

theorem digitChar_toNat {d : Nat} (h : d < 10) : (Nat.digitChar d).toNat = d + 48 := by
  interval_cases d <;> decide

/-- `Nat.toDigitsCore` with enough fuel computes `decChars`. -/
theorem toDigitsCore_eq_decChars :
    ∀ n fuel ds, n < fuel → Nat.toDigitsCore 10 fuel n ds = decChars n ++ ds := by
  intro n
  induction n using Nat.strong_induction_on with
  | _ n ih =>
    intro fuel ds hfuel
    match fuel, hfuel with
    | fuel + 1, hfuel =>
      show (if n / 10 = 0 then Nat.digitChar (n % 10) :: ds
            else Nat.toDigitsCore 10 fuel (n / 10) (Nat.digitChar (n % 10) :: ds))
          = decChars n ++ ds
      by_cases h : n < 10
      · have hz : n / 10 = 0 := Nat.div_eq_of_lt h
        rw [if_pos hz, decChars_of_lt h, Nat.mod_eq_of_lt h]
        rfl
      · have h10 : 10 ≤ n := le_of_not_lt h
        have hz : n / 10 ≠ 0 := by
          intro hc
          have hd := Nat.div_add_mod n 10
          have hm : n % 10 < 10 := Nat.mod_lt n (by omega)
          omega
        rw [if_neg hz]
        have hlt : n / 10 < n := Nat.div_lt_self (by omega) (by omega)
        rw [ih (n / 10) hlt fuel _ (by omega), decChars_of_ge h10]
        simp

/-- Folding the decimal digits of `n` on top of an accumulator. -/
theorem foldl_decChars (n : Nat) :
    ∀ a : Nat, (decChars n).foldl (fun acc c => acc * 10 + (c.toNat - 48)) a
      = a * 10 ^ (decChars n).length + n := by
  induction n using Nat.strong_induction_on with
  | _ n ih =>
    intro a
    by_cases h : n < 10
    · rw [decChars_of_lt h]
      simp [digitChar_toNat h]
    · have h10 : 10 ≤ n := le_of_not_lt h
      have hlt : n / 10 < n := Nat.div_lt_self (by omega) (by omega)
      rw [decChars_of_ge h10, List.foldl_append, ih (n / 10) hlt a]
      simp [digitChar_toNat (Nat.mod_lt n (by omega)), pow_succ]
      have hd : 10 * (n / 10) + n % 10 = n := Nat.div_add_mod n 10
      ring_nf
      omega

/-- Reading back the decimal digits recovers `n`: `decChars` is injective. -/
theorem decChars_injective : Function.Injective decChars := by
  have key : ∀ n : Nat,
      (decChars n).foldl (fun acc c => acc * 10 + (c.toNat - 48)) 0 = n := by
    intro n
    rw [foldl_decChars n 0]
    simp
  intro m n h
  rw [← key m, ← key n, h]

theorem toDigits_eq_decChars (n : Nat) : Nat.toDigits 10 n = decChars n :=
  (toDigitsCore_eq_decChars n (n + 1) [] (Nat.lt_succ_self n)).trans (by simp)

theorem natRepr_injective : Function.Injective Nat.repr := by
  intro m n h
  apply decChars_injective
  rw [← toDigits_eq_decChars, ← toDigits_eq_decChars]
  have hm : (Nat.toDigits 10 m).asString = (Nat.toDigits 10 n).asString := h
  have : ((Nat.toDigits 10 m).asString).data = ((Nat.toDigits 10 n).asString).data := by
    rw [hm]
  simpa [List.asString] using this

theorem natToString_injective : Function.Injective (fun n : Nat => toString n) :=
  natRepr_injective

/-- Cancel a common string on the left of `++`. -/
theorem string_append_left_cancel {p s t : String} (h : p ++ s = p ++ t) : s = t := by
  have hd : (p ++ s).data = (p ++ t).data := by rw [h]
  simp only [String.data_append] at hd
  exact String.ext (List.append_cancel_left hd)

/-! ### Characterization of `generateMockSnapshot` -/

/-- Closed form of the `matchs` array built by `generateMockSnapshot` on the
non-throwing configurations. -/
def mockMatchs (config : MockSnapshotConfig) : List MatchPair :=
  (List.range config.matchesCount).map fun i =>
    { driver := driverIdOf (i % max 1 config.driversCount),
      user := userIdOf ((i * 3) % max 1 config.usersCount) }

/-- The full snapshot returned on a successful `generateMockSnapshot` call. -/
def mockSnapshotOf (rand : Nat → ℚ × ℚ) (config : MockSnapshotConfig) : MatchSnapshotResponse :=
  { drivers := mockDrivers rand config, users := mockUsers rand config,
    matchs := mockMatchs config }

theorem length_mockDrivers (rand : Nat → ℚ × ℚ) (config : MockSnapshotConfig) :
    (mockDrivers rand config).length = config.driversCount := by
  simp [mockDrivers]

theorem length_mockUsers (rand : Nat → ℚ × ℚ) (config : MockSnapshotConfig) :
    (mockUsers rand config).length = config.usersCount := by
  simp [mockUsers]

theorem map_id_mockDrivers (rand : Nat → ℚ × ℚ) (config : MockSnapshotConfig) :
    (mockDrivers rand config).map TrackedPoint.id
      = (List.range config.driversCount).map driverIdOf := by
  simp [mockDrivers]

theorem map_id_mockUsers (rand : Nat → ℚ × ℚ) (config : MockSnapshotConfig) :
    (mockUsers rand config).map TrackedPoint.id
      = (List.range config.usersCount).map userIdOf := by
  simp [mockUsers]

theorem get?_mockDrivers (rand : Nat → ℚ × ℚ) (config : MockSnapshotConfig)
    {k : Nat} (hk : k < config.driversCount) :
    ((mockDrivers rand config).get? k).map TrackedPoint.id = some (driverIdOf k) := by
  simp [mockDrivers, List.get?_eq_getElem?, List.getElem?_map, List.getElem?_range hk]

theorem get?_mockUsers (rand : Nat → ℚ × ℚ) (config : MockSnapshotConfig)
    {k : Nat} (hk : k < config.usersCount) :
    ((mockUsers rand config).get? k).map TrackedPoint.id = some (userIdOf k) := by
  simp [mockUsers, List.get?_eq_getElem?, List.getElem?_map, List.getElem?_range hk]

/-- Option-valued `mapM` succeeds pointwise. -/
theorem mapM_option_eq_some {α β : Type} (f : α → Option β) (g : α → β) :
    ∀ l : List α, (∀ x ∈ l, f x = some (g x)) → l.mapM f = some (l.map g) := by
  intro l
  induction l with
  | nil => intro _; rfl
  | cons a t ih =>
    intro h
    rw [List.mapM_cons, h a (List.mem_cons_self a t),
      ih fun x hx => h x (List.mem_cons_of_mem a hx)]
    rfl

/-- On a configuration where the match loop never indexes past an empty array,
`generateMockSnapshot` returns the fully explicit snapshot. -/
theorem generateMockSnapshot_eq_some (rand : Nat → ℚ × ℚ) (config : MockSnapshotConfig)
    (h : config.matchesCount = 0 ∨ (0 < config.driversCount ∧ 0 < config.usersCount)) :
    generateMockSnapshot rand config = some (mockSnapshotOf rand config) := by
  have hmap : (List.range config.matchesCount).mapM (fun i => do
      let d ← (mockDrivers rand config).get? (i % max 1 (mockDrivers rand config).length)
      let u ← (mockUsers rand config).get? ((i * 3) % max 1 (mockUsers rand config).length)
      pure ({ driver := d.id, user := u.id } : MatchPair))
      = some (mockMatchs config) := by
    refine mapM_option_eq_some _ _ _ ?_
    intro i hi
    have him : i < config.matchesCount := List.mem_range.mp hi
    rcases h with h0 | ⟨hd, hu⟩
    · omega
    · have hdmax : max 1 config.driversCount = config.driversCount :=
        Nat.max_eq_right hd
      have humax : max 1 config.usersCount = config.usersCount :=
        Nat.max_eq_right hu
      have hdk : i % max 1 config.driversCount < config.driversCount := by
        rw [hdmax]; exact Nat.mod_lt _ hd
      have huk : (i * 3) % max 1 config.usersCount < config.usersCount := by
        rw [humax]; exact Nat.mod_lt _ hu
      have hd? := get?_mockDrivers rand config hdk
      have hu? := get?_mockUsers rand config huk
      rw [length_mockDrivers, length_mockUsers]
      obtain ⟨d, hdeq, hdid⟩ := Option.map_eq_some'.mp hd?
      obtain ⟨u, hueq, huid⟩ := Option.map_eq_some'.mp hu?
      rw [List.get?_eq_getElem?] at hdeq hueq
      simp [hdeq, hueq, hdid, huid]
  unfold generateMockSnapshot
  simp only [hmap]
  rfl

/-- On a configuration asking for matches out of an empty side, the match loop
dereferences `undefined` and the call throws (`none`). -/
theorem generateMockSnapshot_eq_none (rand : Nat → ℚ × ℚ) (config : MockSnapshotConfig)
    (hm : 0 < config.matchesCount)
    (h : config.driversCount = 0 ∨ config.usersCount = 0) :
    generateMockSnapshot rand config = none := by
  obtain ⟨m, hmeq⟩ : ∃ m, config.matchesCount = m + 1 :=
    ⟨config.matchesCount - 1, by omega⟩
  simp only [generateMockSnapshot]
  rw [hmeq, List.range_succ_eq_map, List.mapM_cons]
  rcases h with hd | hu
  · have hnil : mockDrivers rand config = [] :=
      List.length_eq_zero.mp ((length_mockDrivers rand config).trans hd)
    simp [hnil]
  · have hnil : mockUsers rand config = [] :=
      List.length_eq_zero.mp ((length_mockUsers rand config).trans hu)
    cases hx : (mockDrivers rand config).get?
        (0 % max 1 (mockDrivers rand config).length) with
    | none => simp [hx, hnil]
    | some d => simp [hx, hnil]

/-! ### Derived accessors used to state claims on concrete snapshots -/

/-- Driver ids in `matchs`, in order. -/
def matchDrivers (s : MatchSnapshotResponse) : List String :=
  s.matchs.map MatchPair.driver

/-- User ids in `matchs`, in order. -/
def matchUsers (s : MatchSnapshotResponse) : List String :=
  s.matchs.map MatchPair.user

/-- Lengths `(drivers, users, matchs)` of a snapshot. -/
def snapshotCounts (s : MatchSnapshotResponse) : Nat × Nat × Nat :=
  (s.drivers.length, s.users.length, s.matchs.length)

/-- A concrete `Math.random` stream (all draws 0), used for closed instances:
none of the verified properties depend on the drawn coordinates. -/
def mockRand0 : Nat → ℚ × ℚ := fun _ => (0, 0)

/-- Inversion: a successful `generateMockSnapshot` call returns exactly the
explicit snapshot, and its configuration never indexed an empty array. -/
theorem generateMockSnapshot_some_inv (rand : Nat → ℚ × ℚ) (config : MockSnapshotConfig)
    (s : MatchSnapshotResponse) (h : generateMockSnapshot rand config = some s) :
    s = mockSnapshotOf rand config
    ∧ (config.matchesCount = 0 ∨ (0 < config.driversCount ∧ 0 < config.usersCount)) := by
  by_cases hc : config.matchesCount = 0 ∨ (0 < config.driversCount ∧ 0 < config.usersCount)
  · rw [generateMockSnapshot_eq_some rand config hc] at h
    exact ⟨(Option.some_inj.mp h).symm, hc⟩
  · exfalso
    push_neg at hc
    obtain ⟨h1, h2⟩ := hc
    have h3 : config.driversCount = 0 ∨ config.usersCount = 0 := by omega
    rw [generateMockSnapshot_eq_none rand config (by omega) h3] at h
    exact Option.noConfusion h

theorem driverIdOf_injective : Function.Injective driverIdOf := by
  intro a b h
  have h2 : toString (a + 1) = toString (b + 1) := string_append_left_cancel h
  have h3 := natToString_injective h2
  omega

theorem userIdOf_injective : Function.Injective userIdOf := by
  intro a b h
  have h2 : toString (a + 1) = toString (b + 1) := string_append_left_cancel h
  have h3 := natToString_injective h2
  omega

/-! ### Claims C1-C4 about `generateMockSnapshot` -/

/-- Claim C1 (code bug evidence): at `driversCount = 0, usersCount = 10,
matchesCount = 1` the generator does not return an empty `matchs` without
error; the match loop evaluates `drivers[0].id` on an empty array, which
throws a `TypeError` (modelled by `none`). -/
theorem claim_C1_zero_drivers_throws :
    generateMockSnapshot mockRand0 ⟨0, 10, 1⟩ = none := by decide

/-- Claim C2 counterexample: at `driversCount = 2, usersCount = 3,
matchesCount = 2` (within the cardinality bound) the returned `matchs` pairs
`user_1` twice — the matching is not one-to-one as claimed. -/
theorem claim_C2_counterexample :
    Option.map matchUsers (generateMockSnapshot mockRand0 ⟨2, 3, 2⟩)
      = some ["user_1", "user_1"]
    ∧ ¬ (["user_1", "user_1"] : List String).Nodup := by decide

/-- Claim C2 amended: in a returned snapshot no driver id appears in more than
one `MatchPair` provided `matchesCount ≤ driversCount`, and no user id appears
in more than one `MatchPair` provided `matchesCount ≤ usersCount` and `3` is
coprime to `usersCount` (the user index is `(i*3) % usersCount`, which repeats
otherwise). -/
theorem claim_C2_one_to_one_amended (rand : Nat → ℚ × ℚ) (config : MockSnapshotConfig)
    (s : MatchSnapshotResponse) (h : generateMockSnapshot rand config = some s) :
    (config.matchesCount ≤ config.driversCount → (matchDrivers s).Nodup)
    ∧ (config.matchesCount ≤ config.usersCount → Nat.Coprime 3 config.usersCount →
        (matchUsers s).Nodup) := by
  obtain ⟨hs, hcase⟩ := generateMockSnapshot_some_inv rand config s h
  subst hs
  simp only [mockSnapshotOf]
  constructor
  · intro hmd
    rcases hcase with h0 | ⟨hd, hu⟩
    · simp [matchDrivers, mockMatchs, h0]
    · have hmax : max 1 config.driversCount = config.driversCount := Nat.max_eq_right hd
      simp only [matchDrivers, mockMatchs, List.map_map]
      refine List.Nodup.map_on ?_ (List.nodup_range _)
      intro i hi j hj hij
      have hi' := List.mem_range.mp hi
      have hj' := List.mem_range.mp hj
      simp only [Function.comp] at hij
      have hmod := driverIdOf_injective hij
      rw [hmax, Nat.mod_eq_of_lt (by omega), Nat.mod_eq_of_lt (by omega)] at hmod
      exact hmod
  · intro hmu hcop
    rcases hcase with h0 | ⟨hd, hu⟩
    · simp [matchUsers, mockMatchs, h0]
    · have hmax : max 1 config.usersCount = config.usersCount := Nat.max_eq_right hu
      simp only [matchUsers, mockMatchs, List.map_map]
      refine List.Nodup.map_on ?_ (List.nodup_range _)
      intro i hi j hj hij
      have hi' := List.mem_range.mp hi
      have hj' := List.mem_range.mp hj
      simp only [Function.comp] at hij
      have hmod := userIdOf_injective hij
      rw [hmax] at hmod
      have hgcd : Nat.gcd config.usersCount 3 = 1 := by
        have := Nat.Coprime.symm hcop
        exact this
      have hme : i * 3 ≡ j * 3 [MOD config.usersCount] := hmod
      have hij' : i ≡ j [MOD config.usersCount] :=
        Nat.ModEq.cancel_right_of_coprime hgcd hme
      have : i % config.usersCount = j % config.usersCount := hij'
      rw [Nat.mod_eq_of_lt (by omega), Nat.mod_eq_of_lt (by omega)] at this
      exact this

/-- Claim C2 witness: at `driversCount = 2, usersCount = 4, matchesCount = 2`
the amended hypotheses hold and both id columns of `matchs` are duplicate-free. -/
theorem claim_C2_witness :
    (matchDrivers (mockSnapshotOf mockRand0 ⟨2, 4, 2⟩)).Nodup
    ∧ (matchUsers (mockSnapshotOf mockRand0 ⟨2, 4, 2⟩)).Nodup := by
  have t := claim_C2_one_to_one_amended mockRand0 ⟨2, 4, 2⟩
    (mockSnapshotOf mockRand0 ⟨2, 4, 2⟩)
    (generateMockSnapshot_eq_some mockRand0 ⟨2, 4, 2⟩ (Or.inr ⟨by decide, by decide⟩))
  exact ⟨t.1 (by decide), t.2 (by decide) (by decide)⟩

/-- Claim C3 counterexample: at `driversCount = 1, usersCount = 1,
matchesCount = 5` the generator returns 5 matches against 1 driver and 1 user,
violating `len(matchs) ≤ min(len(drivers), len(users))`. -/
theorem claim_C3_counterexample :
    Option.map snapshotCounts (generateMockSnapshot mockRand0 ⟨1, 1, 5⟩)
      = some (1, 1, 5)
    ∧ ¬ ((5 : Nat) ≤ min 1 1) := by decide

/-- Claim C3 amended: a returned snapshot always has
`len(matchs) = matchesCount`; the bound `len(matchs) ≤ min(len(drivers),
len(users))` therefore holds exactly when `matchesCount ≤
min(driversCount, usersCount)`. -/
theorem claim_C3_matchs_length_amended (rand : Nat → ℚ × ℚ) (config : MockSnapshotConfig)
    (s : MatchSnapshotResponse) (h : generateMockSnapshot rand config = some s) :
    s.matchs.length = config.matchesCount
    ∧ (config.matchesCount ≤ min config.driversCount config.usersCount →
        s.matchs.length ≤ min s.drivers.length s.users.length) := by
  obtain ⟨hs, -⟩ := generateMockSnapshot_some_inv rand config s h
  subst hs
  simp only [mockSnapshotOf]
  have h1 : (mockMatchs config).length = config.matchesCount := by
    simp [mockMatchs]
  refine ⟨h1, fun hb => ?_⟩
  simpa [h1, length_mockDrivers, length_mockUsers] using hb

/-- Claim C3 witness: at `driversCount = 3, usersCount = 5, matchesCount = 2`
the snapshot has 2 matches, within the bound `min 3 5`. -/
theorem claim_C3_witness :
    (mockSnapshotOf mockRand0 ⟨3, 5, 2⟩).matchs.length
      = (⟨3, 5, 2⟩ : MockSnapshotConfig).matchesCount
    ∧ (mockSnapshotOf mockRand0 ⟨3, 5, 2⟩).matchs.length
      ≤ min (mockSnapshotOf mockRand0 ⟨3, 5, 2⟩).drivers.length
          (mockSnapshotOf mockRand0 ⟨3, 5, 2⟩).users.length := by
  have t := claim_C3_matchs_length_amended mockRand0 ⟨3, 5, 2⟩
    (mockSnapshotOf mockRand0 ⟨3, 5, 2⟩)
    (generateMockSnapshot_eq_some mockRand0 ⟨3, 5, 2⟩ (Or.inr ⟨by decide, by decide⟩))
  exact ⟨t.1, t.2 (by decide)⟩

/-- Claim C4: a returned snapshot has exactly `driversCount` drivers whose ids
are `driver_{i+1}` in positional order, exactly `usersCount` users whose ids
are `user_{i+1}`, and the ids within each set are pairwise distinct. -/
theorem claim_C4_point_ids (rand : Nat → ℚ × ℚ) (config : MockSnapshotConfig)
    (s : MatchSnapshotResponse) (h : generateMockSnapshot rand config = some s) :
    s.drivers.map TrackedPoint.id = (List.range config.driversCount).map driverIdOf
    ∧ s.users.map TrackedPoint.id = (List.range config.usersCount).map userIdOf
    ∧ s.drivers.length = config.driversCount
    ∧ s.users.length = config.usersCount
    ∧ (s.drivers.map TrackedPoint.id).Nodup
    ∧ (s.users.map TrackedPoint.id).Nodup := by
  obtain ⟨hs, -⟩ := generateMockSnapshot_some_inv rand config s h
  subst hs
  simp only [mockSnapshotOf]
  refine ⟨map_id_mockDrivers rand config, map_id_mockUsers rand config,
    length_mockDrivers rand config, length_mockUsers rand config, ?_, ?_⟩
  · rw [map_id_mockDrivers]
    exact (List.nodup_range _).map driverIdOf_injective
  · rw [map_id_mockUsers]
    exact (List.nodup_range _).map userIdOf_injective

/-- Claim C4 witness: the conclusion instantiated at
`driversCount = 2, usersCount = 3, matchesCount = 1`. -/
theorem claim_C4_witness :
    (mockSnapshotOf mockRand0 ⟨2, 3, 1⟩).drivers.map TrackedPoint.id
      = (List.range (2 : Nat)).map driverIdOf
    ∧ (mockSnapshotOf mockRand0 ⟨2, 3, 1⟩).users.map TrackedPoint.id
      = (List.range (3 : Nat)).map userIdOf
    ∧ (mockSnapshotOf mockRand0 ⟨2, 3, 1⟩).drivers.length = 2
    ∧ (mockSnapshotOf mockRand0 ⟨2, 3, 1⟩).users.length = 3
    ∧ ((mockSnapshotOf mockRand0 ⟨2, 3, 1⟩).drivers.map TrackedPoint.id).Nodup
    ∧ ((mockSnapshotOf mockRand0 ⟨2, 3, 1⟩).users.map TrackedPoint.id).Nodup :=
  claim_C4_point_ids mockRand0 ⟨2, 3, 1⟩ (mockSnapshotOf mockRand0 ⟨2, 3, 1⟩)
    (generateMockSnapshot_eq_some mockRand0 ⟨2, 3, 1⟩ (Or.inr ⟨by decide, by decide⟩))

/-! ### Claim C5: response shape

A small JSON value type lets us compare the snapshot produced by
`generateMockSnapshot` with the wire shape the spec fixes for the backend
response (and which `fetchMatchSnapshot` resolves with). -/

/-- A minimal JSON value type for stating the wire shape. -/
inductive Json where
  | str (s : String)
  | num (q : ℚ)
  | arr (xs : List Json)
  | obj (fields : List (String × Json))

/-- Serialization of a `TrackedPoint` (field order as in the code's object
literal `{ id, lat, lng }`). -/
def encodeTrackedPoint (p : TrackedPoint) : Json :=
  .obj [("id", .str p.id), ("lat", .num p.lat), ("lng", .num p.lng)]

/-- Serialization of a `MatchPair` (`{ driver, user }`). -/
def encodeMatchPair (m : MatchPair) : Json :=
  .obj [("driver", .str m.driver), ("user", .str m.user)]

/-- Serialization of a `MatchSnapshotResponse` (`{ drivers, users, matchs }`). -/
def encodeSnapshot (s : MatchSnapshotResponse) : Json :=
  .obj [("drivers", .arr (s.drivers.map encodeTrackedPoint)),
    ("users", .arr (s.users.map encodeTrackedPoint)),
    ("matchs", .arr (s.matchs.map encodeMatchPair))]

/-- Modelled from the spec: the response-body grammar of section 6,
`{"id": str, "lat": number, "lng": number}` for a point. -/
def isPointJson : Json → Bool
  | .obj [("id", .str _), ("lat", .num _), ("lng", .num _)] => true
  | _ => false

/-- Modelled from the spec: `{"driver": str, "user": str}` for a match. -/
def isPairJson : Json → Bool
  | .obj [("driver", .str _), ("user", .str _)] => true
  | _ => false

/-- Modelled from the spec: the exact three-key response body
`{ "drivers": [...], "users": [...], "matchs": [...] }` of section 6. -/
def isSnapshotJson : Json → Bool
  | .obj [("drivers", .arr ds), ("users", .arr us), ("matchs", .arr ms)] =>
    ds.all isPointJson && us.all isPointJson && ms.all isPairJson
  | _ => false

/-- Claim C5: every snapshot returned by `generateMockSnapshot` serializes to
exactly the three-field response shape (`drivers`/`users` of
`{id, lat, lng}` records, `matchs` of `{driver, user}` records) that the spec
fixes for the fetched backend response, so the consumer cannot structurally
distinguish mock from fetched data. -/
theorem claim_C5_response_shape (rand : Nat → ℚ × ℚ) (config : MockSnapshotConfig)
    (s : MatchSnapshotResponse) (h : generateMockSnapshot rand config = some s) :
    isSnapshotJson (encodeSnapshot s) = true := by
  clear h
  simp only [encodeSnapshot, isSnapshotJson, Bool.and_eq_true, List.all_eq_true]
  refine ⟨⟨fun x hx => ?_, fun x hx => ?_⟩, fun x hx => ?_⟩
  · obtain ⟨p, -, rfl⟩ := List.mem_map.mp hx
    rfl
  · obtain ⟨p, -, rfl⟩ := List.mem_map.mp hx
    rfl
  · obtain ⟨m, -, rfl⟩ := List.mem_map.mp hx
    rfl

/-- Claim C5 witness: the shape check instantiated at a concrete returned
snapshot. -/
theorem claim_C5_witness :
    isSnapshotJson (encodeSnapshot (mockSnapshotOf mockRand0 ⟨1, 2, 1⟩)) = true :=
  claim_C5_response_shape mockRand0 ⟨1, 2, 1⟩ (mockSnapshotOf mockRand0 ⟨1, 2, 1⟩)
    (generateMockSnapshot_eq_some mockRand0 ⟨1, 2, 1⟩ (Or.inr ⟨by decide, by decide⟩))

/-! ### Claim C6: the UI's `lastMatch` -/

namespace MapView

/-- `MapView.lastMatch` (`src/unnamed/part_001` line 125):
`matchs.length > 0 ? matchs[matchs.length - 1] : null`. -/
def lastMatch (matchs : List MatchPair) : Option MatchPair :=
  if h : matchs.length > 0 then
    some (matchs.get ⟨matchs.length - 1, by omega⟩)
  else none

end MapView

namespace App

/-- `App.lastMatch` (`src/unnamed/part_002` lines 816-819):
`if (matchs.length === 0) return null; return matchs[matchs.length - 1]`. -/
def lastMatch (matchs : List MatchPair) : Option MatchPair :=
  if h : matchs.length = 0 then none
  else some (matchs.get ⟨matchs.length - 1, by omega⟩)

end App

/-- Claim C6: both `lastMatch` computations used for display (`MapView` and
`App`) return the last element of `matchs` when the list is non-empty and
`null` when it is empty — i.e. they are exactly `List.getLast?`. -/
theorem claim_C6_lastMatch (matchs : List MatchPair) :
    MapView.lastMatch matchs = matchs.getLast?
    ∧ App.lastMatch matchs = matchs.getLast? := by
  have hget : ∀ h : 0 < matchs.length,
      matchs.get ⟨matchs.length - 1, by omega⟩ = matchs.getLast (by
        intro hnil
        rw [hnil] at h
        simp at h) := by
    intro h
    rw [List.getLast_eq_getElem]
    rfl
  constructor
  · unfold MapView.lastMatch
    by_cases h : 0 < matchs.length
    · rw [dif_pos h, hget h, List.getLast?_eq_getLast _ _]
    · rw [dif_neg h]
      have : matchs = [] := List.length_eq_zero.mp (by omega)
      rw [this]
      rfl
  · unfold App.lastMatch
    by_cases h : matchs.length = 0
    · rw [dif_pos h]
      have : matchs = [] := List.length_eq_zero.mp h
      rw [this]
      rfl
    · rw [dif_neg h, hget (by omega), List.getLast?_eq_getLast _ _]

/-! ### Claim C7: `refreshSnapshot` error handling -/

/-- The `App` state touched by `refreshSnapshot` (`src/unnamed/part_002`):
`drivers`, `users`, `matchs`, `snapshotError`, `isLoadingSnapshot`. -/
structure AppState where
  drivers : List TrackedPoint
  users : List TrackedPoint
  matchs : List MatchPair
  snapshotError : Option String
  isLoadingSnapshot : Bool
deriving DecidableEq

/-- `clearSnapshot` from `src/unnamed/part_002`: empties the three entity
lists. -/
def clearSnapshot (s : AppState) : AppState :=
  { s with drivers := [], users := [], matchs := [] }

/-- The displayed message `e?.message || 'Failed to fetch snapshot'`:
a missing (`none`) or empty (falsy) message falls back to the default. -/
def snapshotErrorMessage (msg : Option String) : String :=
  match msg with
  | some m => if m = "" then "Failed to fetch snapshot" else m
  | none => "Failed to fetch snapshot"

/-- `refreshSnapshot` from `src/unnamed/part_002` (lines 780-804), as a state
transformer over the outcome of the awaited snapshot computation: it first
resets `snapshotError` and sets the loading flag, then on success installs the
three lists, and on failure runs `clearSnapshot()` and stores the error
message; `finally` clears the loading flag. -/
def refreshSnapshot (s : AppState)
    (result : Except (Option String) MatchSnapshotResponse) : AppState :=
  let s := { s with snapshotError := none, isLoadingSnapshot := true }
  match result with
  | .ok data =>
    { s with drivers := data.drivers, users := data.users, matchs := data.matchs,
             isLoadingSnapshot := false }
  | .error e =>
    { clearSnapshot s with snapshotError := some (snapshotErrorMessage e),
                           isLoadingSnapshot := false }

/-- Claim C7: whenever the snapshot fetch fails, the state after
`refreshSnapshot` has all three entity lists empty and a non-null
`snapshotError` — no partial set from the failed attempt is retained. -/
theorem claim_C7_error_clears (s : AppState) (e : Option String) :
    (refreshSnapshot s (.error e)).drivers = []
    ∧ (refreshSnapshot s (.error e)).users = []
    ∧ (refreshSnapshot s (.error e)).matchs = []
    ∧ (refreshSnapshot s (.error e)).snapshotError ≠ none := by
  refine ⟨rfl, rfl, rfl, ?_⟩
  simp [refreshSnapshot, clearSnapshot]

/-! ### Claim C8: `fetchMatchSnapshot` -/

/-- `MatchSnapshotOptions` from `src/services/matchSnapshotService.ts`
(`timeoutMs?: number` is optional). -/
structure MatchSnapshotOptions where
  endpoint : String
  timeoutMs : Option Nat
deriving DecidableEq

/-- An abstract HTTP response as seen by the `fetch` call: its `ok` flag,
numeric `status`, and the JSON body (blindly cast by the code to
`MatchSnapshotResponse`). -/
structure HttpResponse where
  ok : Bool
  status : Nat
  body : MatchSnapshotResponse
deriving DecidableEq

/-- The distinct rejection outcomes of `fetchMatchSnapshot`. -/
inductive FetchError where
  | emptyEndpoint
  | aborted
  | requestFailed (status : Nat)
deriving DecidableEq

/-- JS `String.prototype.trim`: strip leading and trailing whitespace. -/
def jsTrim (s : String) : String :=
  String.mk ((s.data.dropWhile Char.isWhitespace).reverse.dropWhile
    Char.isWhitespace).reverse

/-- The effective timeout `options.timeoutMs ?? 12_000` installed by
`withTimeout`. -/
def fetchTimeoutMs (options : MatchSnapshotOptions) : Nat :=
  options.timeoutMs.getD 12000

/-- `fetchMatchSnapshot` from `src/services/matchSnapshotService.ts`
(lines 24-44), with the asynchronous network modelled by the time
`arrivalMs` at which the HTTP response would arrive and by the response
itself. A trimmed-empty endpoint throws before fetching; `withTimeout`
aborts the request at `fetchTimeoutMs options`, so a response that has not
arrived strictly before then is never observed; `!res.ok` throws
`Request failed (status)`; otherwise the call resolves with the parsed
body. -/
def fetchMatchSnapshot (options : MatchSnapshotOptions) (arrivalMs : Nat)
    (res : HttpResponse) : Except FetchError MatchSnapshotResponse :=
  if jsTrim options.endpoint = "" then .error .emptyEndpoint
  else if fetchTimeoutMs options ≤ arrivalMs then .error .aborted
  else if res.ok = false then .error (.requestFailed res.status)
  else .ok res.body

/-- Claim C8: `fetchMatchSnapshot` rejects whenever the response status is not
ok, aborts once the bounded timeout (`timeoutMs` if given, else 12000 ms)
elapses before the response arrives, and resolves only with the parsed
response body. -/
theorem claim_C8_fetch_contract (options : MatchSnapshotOptions) (arrivalMs : Nat)
    (res : HttpResponse) :
    (res.ok = false → ∀ b, fetchMatchSnapshot options arrivalMs res ≠ .ok b)
    ∧ (jsTrim options.endpoint ≠ "" → fetchTimeoutMs options ≤ arrivalMs →
        fetchMatchSnapshot options arrivalMs res = .error .aborted)
    ∧ (∀ b, fetchMatchSnapshot options arrivalMs res = .ok b → b = res.body)
    ∧ (∀ t, options.timeoutMs = some t → fetchTimeoutMs options = t)
    ∧ (options.timeoutMs = none → fetchTimeoutMs options = 12000) := by
  refine ⟨?_, ?_, ?_, ?_, ?_⟩
  · intro hok b
    unfold fetchMatchSnapshot
    by_cases he : jsTrim options.endpoint = ""
    · simp [he]
    · by_cases ht : fetchTimeoutMs options ≤ arrivalMs
      · simp [he, ht]
      · simp [he, ht, hok]
  · intro he ht
    unfold fetchMatchSnapshot
    simp [he, ht]
  · intro b hb
    unfold fetchMatchSnapshot at hb
    by_cases he : jsTrim options.endpoint = ""
    · simp [he] at hb
    · by_cases ht : fetchTimeoutMs options ≤ arrivalMs
      · simp [he, ht] at hb
      · by_cases hok : res.ok = false
        · simp [he, ht, hok] at hb
        · simp [he, ht, hok] at hb
          exact hb.symm
  · intro t hsome
    simp [fetchTimeoutMs, hsome]
  · intro hnone
    simp [fetchTimeoutMs, hnone]

/-- Claim C8 witness: with endpoint `"e"` and no explicit timeout, a non-ok
response at time 0 is not resolved, a response arriving at 12000 ms is
aborted, and the default timeout is 12000 ms. -/
theorem claim_C8_witness :
    fetchMatchSnapshot ⟨"e", none⟩ 0 ⟨false, 500, ⟨[], [], []⟩⟩ ≠ .ok ⟨[], [], []⟩
    ∧ fetchMatchSnapshot ⟨"e", none⟩ 12000 ⟨true, 200, ⟨[], [], []⟩⟩ = .error .aborted
    ∧ fetchTimeoutMs ⟨"e", none⟩ = 12000 := by
  refine ⟨?_, ?_, ?_⟩
  · exact (claim_C8_fetch_contract ⟨"e", none⟩ 0 ⟨false, 500, ⟨[], [], []⟩⟩).1 rfl _
  · exact (claim_C8_fetch_contract ⟨"e", none⟩ 12000 ⟨true, 200, ⟨[], [], []⟩⟩).2.1
      (by decide) (by decide)
  · exact (claim_C8_fetch_contract ⟨"e", none⟩ 0 ⟨true, 200, ⟨[], [], []⟩⟩).2.2.2.2 rfl

/-! ### Claim C10: `pickUserAvatarVariant` -/

/-- The TS union type `UserAvatarVariant = 'man' | 'girl'`. -/
inductive UserAvatarVariant where
  | man
  | girl
deriving DecidableEq

/-- `pickUserAvatarVariant` from `src/unnamed/part_001` (lines 128-135): a
31-based rolling hash of the id's code units, kept in `[0, 2^32)` by
`>>> 0` (for hash < 2^32 the intermediate `hash * 31 + c` is below `2^37`,
exactly representable in a JS number, so `>>> 0` is exactly `% 2^32`), then
parity selects the variant. -/
def pickUserAvatarVariant (id : String) : UserAvatarVariant :=
  let hash := id.data.foldl (fun h c => (h * 31 + c.toNat) % 4294967296) 0
  if hash % 2 = 0 then .man else .girl

/-- Claim C10: `pickUserAvatarVariant` is deterministic and total — equal ids
give equal variants, the result depends only on the id, and it is always
`man` or `girl`. -/
theorem claim_C10_avatar_deterministic_total :
    (∀ id₁ id₂ : String, id₁ = id₂ →
      pickUserAvatarVariant id₁ = pickUserAvatarVariant id₂)
    ∧ (∀ id : String, pickUserAvatarVariant id = .man
        ∨ pickUserAvatarVariant id = .girl) := by
  constructor
  · intro id₁ id₂ h
    rw [h]
  · intro id
    unfold pickUserAvatarVariant
    by_cases h : (id.data.foldl (fun h c => (h * 31 + c.toNat) % 4294967296) 0) % 2 = 0
    · exact Or.inl (by simp [h])
    · exact Or.inr (by simp [h])

/-- Claim C10 witness: the theorem instantiated at the id `"user_1"`. -/
theorem claim_C10_witness :
    pickUserAvatarVariant "user_1" = pickUserAvatarVariant "user_1"
    ∧ (pickUserAvatarVariant "user_1" = .man
        ∨ pickUserAvatarVariant "user_1" = .girl) :=
  ⟨claim_C10_avatar_deterministic_total.1 "user_1" "user_1" rfl,
    claim_C10_avatar_deterministic_total.2 "user_1"⟩

/-! ### Claim C9: single-flight regeneration of the `SnapshotStore`

The backend (`back/snapshot/generator.py` per the repository README) is not
part of the available sources, so the store is modelled from the spec's
section 4.4 state machine. A snapshot is identified by its generation epoch
(a `Nat`); `gens` counts how many generation-and-match computations have run. -/

/-- Modelled from the spec: the observable state of one `get()` caller at a
`STALE`/`EMPTY` store — still `pending`, holding the regeneration slot
(`generating`), awaiting the in-flight regeneration (`waiting`), or finished
with a snapshot (`done`). -/
inductive CallerState where
  | pending
  | generating
  | waiting
  | done (snap : Nat)
deriving DecidableEq

/-- Modelled from the spec: the `SnapshotStore` shared state — the cached
snapshot reference, its freshness, the single regeneration slot, the number
of generation computations run, and the multiset of caller states. -/
structure StoreSys where
  cache : Option Nat
  fresh : Bool
  slotTaken : Bool
  gens : Nat
  callers : Multiset CallerState

/-- Modelled from the spec: one interleaving step of `SnapshotStore.get`
(section 4.4). A `pending` caller at a fresh store returns the cache
(`hitFresh`); at a stale store it either takes the free regeneration slot
(`acquire`) or joins the waiters when the slot is held (`joinWait`); the slot
holder runs the generation computation and publishes atomically (`publish`:
`gens` is incremented and the new snapshot becomes the fresh cache); a waiter
returns the published snapshot (`wake`). -/
inductive StoreStep : StoreSys → StoreSys → Prop where
  | hitFresh (s : StoreSys) (v : Nat) : s.fresh = true → s.cache = some v →
      CallerState.pending ∈ s.callers →
      StoreStep s { s with
        callers := (s.callers.erase CallerState.pending).cons (CallerState.done v) }
  | acquire (s : StoreSys) : s.fresh = false → s.slotTaken = false →
      CallerState.pending ∈ s.callers →
      StoreStep s { s with
        slotTaken := true,
        callers := (s.callers.erase CallerState.pending).cons CallerState.generating }
  | joinWait (s : StoreSys) : s.fresh = false → s.slotTaken = true →
      CallerState.pending ∈ s.callers →
      StoreStep s { s with
        callers := (s.callers.erase CallerState.pending).cons CallerState.waiting }
  | publish (s : StoreSys) : CallerState.generating ∈ s.callers →
      StoreStep s { cache := some s.gens, fresh := true, slotTaken := false,
                    gens := s.gens + 1,
                    callers := (s.callers.erase CallerState.generating).cons
                      (CallerState.done s.gens) }
  | wake (s : StoreSys) (v : Nat) : s.fresh = true → s.cache = some v →
      CallerState.waiting ∈ s.callers →
      StoreStep s { s with
        callers := (s.callers.erase CallerState.waiting).cons (CallerState.done v) }

/-- Modelled from the spec: a `STALE` (cache present, stale) or `EMPTY`
(no cache) store hit by `n` concurrent `get()` calls, before any step. -/
def initStore (cache0 : Option Nat) (n : Nat) : StoreSys :=
  { cache := cache0, fresh := false, slotTaken := false, gens := 0,
    callers := Multiset.replicate n CallerState.pending }

/-- Invariant of the single-flight protocol: before publication there are no
finished callers, no computation has run, and at most one caller (exactly one
when the slot is held, none otherwise) is generating; after publication
exactly one computation has run, the published snapshot `0` is the fresh
cache, and every finished caller holds it. -/
def storeInv (n : Nat) (s : StoreSys) : Prop :=
  Multiset.card s.callers = n
  ∧ ((s.fresh = false ∧ s.gens = 0
      ∧ (∀ v, CallerState.done v ∉ s.callers)
      ∧ Multiset.count CallerState.generating s.callers ≤ 1
      ∧ (s.slotTaken = false → Multiset.count CallerState.generating s.callers = 0))
    ∨ (s.fresh = true ∧ s.gens = 1 ∧ s.cache = some 0 ∧ s.slotTaken = false
      ∧ Multiset.count CallerState.generating s.callers = 0
      ∧ (∀ v, CallerState.done v ∈ s.callers → v = 0)))

theorem storeInv_init (cache0 : Option Nat) (n : Nat) : storeInv n (initStore cache0 n) := by
  refine ⟨by simp [initStore], Or.inl ⟨rfl, rfl, ?_, ?_, ?_⟩⟩
  · intro v hv
    have := Multiset.eq_of_mem_replicate hv
    exact CallerState.noConfusion this
  · simp [initStore, Multiset.count_replicate]
  · intro _
    simp [initStore, Multiset.count_replicate]

theorem storeInv_step {n : Nat} {s s' : StoreSys} (hstep : StoreStep s s')
    (hinv : storeInv n s) : storeInv n s' := by
  obtain ⟨hcard, hbr⟩ := hinv
  have hcard_update : ∀ (a b : CallerState), a ∈ s.callers →
      Multiset.card ((s.callers.erase a).cons b) = n := by
    intro a b ha
    rw [Multiset.card_cons, Multiset.card_erase_of_mem ha, Nat.pred_eq_sub_one]
    have hpos : 0 < Multiset.card s.callers :=
      Multiset.card_pos_iff_exists_mem.mpr ⟨a, ha⟩
    omega
  cases hstep with
  | hitFresh v hf hc hp =>
    rcases hbr with ⟨hf', -⟩ | ⟨-, hg, hc', hsl, hcnt, hdone⟩
    · rw [hf] at hf'
      exact Bool.noConfusion hf'
    · refine ⟨hcard_update _ _ hp, Or.inr ⟨hf, hg, hc', hsl, ?_, ?_⟩⟩
      · rw [Multiset.count_cons_of_ne (by intro h; exact CallerState.noConfusion h)]
        rw [Multiset.count_erase_of_ne (by intro h; exact CallerState.noConfusion h)]
        exact hcnt
      · intro w hw
        rcases Multiset.mem_cons.mp hw with heq | hmem
        · have hv0 : v = 0 := by
            rw [hc] at hc'
            exact Option.some_inj.mp hc'
          injection heq with h1
          omega
        · exact hdone w (Multiset.mem_of_mem_erase hmem)
  | acquire hf hsl hp =>
    rcases hbr with ⟨-, hg, hdone, hcnt, hcnt0⟩ | ⟨hf', -⟩
    · refine ⟨hcard_update _ _ hp, Or.inl ⟨hf, hg, ?_, ?_, ?_⟩⟩
      · intro v hv
        rcases Multiset.mem_cons.mp hv with heq | hmem
        · exact CallerState.noConfusion heq
        · exact hdone v (Multiset.mem_of_mem_erase hmem)
      · rw [Multiset.count_cons_self]
        rw [Multiset.count_erase_of_ne (by intro h; exact CallerState.noConfusion h)]
        rw [hcnt0 hsl]
      · intro hcontra
        exact Bool.noConfusion hcontra
    · rw [hf] at hf'
      exact Bool.noConfusion hf'
  | joinWait hf hsl hp =>
    rcases hbr with ⟨-, hg, hdone, hcnt, hcnt0⟩ | ⟨hf', -⟩
    · refine ⟨hcard_update _ _ hp, Or.inl ⟨hf, hg, ?_, ?_, ?_⟩⟩
      · intro v hv
        rcases Multiset.mem_cons.mp hv with heq | hmem
        · exact CallerState.noConfusion heq
        · exact hdone v (Multiset.mem_of_mem_erase hmem)
      · rw [Multiset.count_cons_of_ne (by intro h; exact CallerState.noConfusion h)]
        calc Multiset.count CallerState.generating (s.callers.erase CallerState.pending)
            ≤ Multiset.count CallerState.generating s.callers :=
              Multiset.count_le_of_le _ (Multiset.erase_le _ _)
          _ ≤ 1 := hcnt
      · intro hsl0
        rw [Multiset.count_cons_of_ne (by intro h; exact CallerState.noConfusion h)]
        rw [Multiset.count_erase_of_ne (by intro h; exact CallerState.noConfusion h)]
        exact hcnt0 hsl0
    · rw [hf] at hf'
      exact Bool.noConfusion hf'
  | publish hgen =>
    rcases hbr with ⟨-, hg, hdone, hcnt, -⟩ | ⟨-, -, -, -, hcnt, -⟩
    · have hone : Multiset.count CallerState.generating s.callers = 1 := by
        have := Multiset.count_pos.mpr hgen
        omega
      refine ⟨hcard_update _ _ hgen, Or.inr ⟨rfl, ?_, ?_, rfl, ?_, ?_⟩⟩
      · show s.gens + 1 = 1
        omega
      · show some s.gens = some 0
        rw [hg]
      · rw [Multiset.count_cons_of_ne (by intro h; exact CallerState.noConfusion h)]
        rw [Multiset.count_erase_self, hone]
      · intro w hw
        rcases Multiset.mem_cons.mp hw with heq | hmem
        · injection heq with h1
          omega
        · exact absurd (Multiset.mem_of_mem_erase hmem) (hdone w)
    · exact absurd (Multiset.count_pos.mpr hgen) (by omega)
  | wake v hf hc hw =>
    rcases hbr with ⟨hf', -⟩ | ⟨-, hg, hc', hsl, hcnt, hdone⟩
    · rw [hf] at hf'
      exact Bool.noConfusion hf'
    · refine ⟨hcard_update _ _ hw, Or.inr ⟨hf, hg, hc', hsl, ?_, ?_⟩⟩
      · rw [Multiset.count_cons_of_ne (by intro h; exact CallerState.noConfusion h)]
        rw [Multiset.count_erase_of_ne (by intro h; exact CallerState.noConfusion h)]
        exact hcnt
      · intro w hw'
        rcases Multiset.mem_cons.mp hw' with heq | hmem
        · have hv0 : v = 0 := by
            rw [hc] at hc'
            exact Option.some_inj.mp hc'
          injection heq with h1
          omega
        · exact hdone w (Multiset.mem_of_mem_erase hmem)

theorem storeInv_steps {n : Nat} {s s' : StoreSys}
    (hsteps : Relation.ReflTransGen StoreStep s s') (hinv : storeInv n s) :
    storeInv n s' := by
  induction hsteps with
  | refl => exact hinv
  | tail hab hbc ih => exact storeInv_step hbc ih

/-- Claim C9: when `n ≥ 1` concurrent `get()` calls arrive at a store in the
`STALE` or `EMPTY` state, any complete interleaving (every caller finished)
has run exactly one generation computation, and every caller received the one
snapshot that computation published. -/
theorem claim_C9_single_flight (cache0 : Option Nat) (n : Nat) (hn : 1 ≤ n)
    (s : StoreSys) (hsteps : Relation.ReflTransGen StoreStep (initStore cache0 n) s)
    (hdone : ∀ c ∈ s.callers, ∃ v, c = CallerState.done v) :
    s.gens = 1
    ∧ ∃ snap, s.cache = some snap
        ∧ ∀ c ∈ s.callers, c = CallerState.done snap := by
  have hinv := storeInv_steps hsteps (storeInv_init cache0 n)
  obtain ⟨hcard, hbr⟩ := hinv
  obtain ⟨c, hc⟩ : ∃ c, c ∈ s.callers := by
    apply Multiset.card_pos_iff_exists_mem.mp
    omega
  obtain ⟨v, hv⟩ := hdone c hc
  rcases hbr with ⟨-, -, hnodone, -, -⟩ | ⟨-, hg, hcache, -, -, halldone⟩
  · exact absurd (hv ▸ hc) (hnodone v)
  · refine ⟨hg, 0, hcache, ?_⟩
    intro c' hc'
    obtain ⟨w, hw⟩ := hdone c' hc'
    rw [hw]
    have := halldone w (hw ▸ hc')
    rw [this]

/-- Intermediate state of the one-caller trace: the caller holds the slot. -/
def midStore1 : StoreSys :=
  { cache := none, fresh := false, slotTaken := true, gens := 0,
    callers := ((Multiset.replicate 1 CallerState.pending).erase
      CallerState.pending).cons CallerState.generating }

/-- Final state of the one-caller trace: the caller published epoch 0. -/
def finalStore1 : StoreSys :=
  { cache := some 0, fresh := true, slotTaken := false, gens := 1,
    callers := ((((Multiset.replicate 1 CallerState.pending).erase
      CallerState.pending).cons CallerState.generating).erase
      CallerState.generating).cons (CallerState.done 0) }

/-- Claim C9 witness: a complete concrete trace of one `get()` call against an
`EMPTY` store (acquire, then publish) runs exactly one computation and hands
that snapshot to the caller. -/
theorem claim_C9_witness :
    finalStore1.gens = 1
    ∧ ∃ snap, finalStore1.cache = some snap
        ∧ ∀ c ∈ finalStore1.callers, c = CallerState.done snap := by
  have hmem1 : CallerState.pending ∈ (initStore none 1).callers := by
    simp [initStore]
  have h1 : StoreStep (initStore none 1) midStore1 :=
    StoreStep.acquire (initStore none 1) rfl rfl hmem1
  have hmem2 : CallerState.generating ∈ midStore1.callers := by
    simp [midStore1]
  have h2 : StoreStep midStore1 finalStore1 :=
    StoreStep.publish midStore1 hmem2
  have hdone : ∀ c ∈ finalStore1.callers, ∃ v, c = CallerState.done v := by
    intro c hc
    simp [finalStore1] at hc
    exact ⟨0, hc⟩
  exact claim_C9_single_flight none 1 (by omega) finalStore1
    (Relation.ReflTransGen.head h1 (Relation.ReflTransGen.single h2)) hdone

end UserDriversVisualizer
